import Mathlib

/-
Verification of the custom Checkov rule catalog under .checkov/custom_checks.

The rules evaluate one CloudFormation resource configuration at a time and
return a categorical verdict.  Resource configurations are JSON-like trees;
we embed them as the inductive type Value below.  Python dictionaries are
embedded as association lists in insertion order (CloudFormation keys are
unique), Python None as Value.null.

Python attribute and type errors matter here: calling .get on a non-dict
raises AttributeError, and iterating a non-iterable raises TypeError.  Each
scan function is therefore embedded in the Except PyErr monad, with
Value.pyGetD mirroring dict.get(key, default) (raising on non-dicts) and
pyIter mirroring Python iteration (lists yield elements, dicts yield their
keys, strings yield one-character strings, everything else raises).

Known modelling simplifications, none of which affect the claims below:
the regex digit class and the string lowercasing are ASCII (the source data
is ASCII); int() coercion accepts an optional sign and decimal digits with
surrounding spaces, but not underscores; pyEq compares dicts as ordered
association lists, while the source only ever compares dicts against the
empty-dict literal, where the two semantics agree.
-/

set_option maxHeartbeats 1000000

inductive Value where
  | str (s : String)
  | num (n : Int)
  | bool (b : Bool)
  | null
  | list (xs : List Value)
  | dict (kvs : List (String × Value))

inductive PyErr where
  | attributeError
  | typeError
deriving DecidableEq, Repr

/-- Verdicts of checkov.common.models.enums.CheckResult used by the rules. -/
inductive CheckResult where
  | PASSED
  | FAILED
  | UNKNOWN
deriving DecidableEq, Repr

mutual

/-- Python == on embedded values.  Scalars compare by value, with the
numeric coercion bool == int that Python applies; lists and dicts compare
structurally. -/
def pyEq : Value → Value → Bool
  | .str a, .str b => a = b
  | .num a, .num b => a = b
  | .bool a, .bool b => a = b
  | .num a, .bool b => a = (if b then (1 : Int) else 0)
  | .bool a, .num b => (if a then (1 : Int) else 0) = b
  | .null, .null => true
  | .list a, .list b => pyEqList a b
  | .dict a, .dict b => pyEqKVs a b
  | _, _ => false

def pyEqList : List Value → List Value → Bool
  | [], [] => true
  | a :: atl, b :: btl => pyEq a b && pyEqList atl btl
  | _, _ => false

def pyEqKVs : List (String × Value) → List (String × Value) → Bool
  | [], [] => true
  | (ka, va) :: atl, (kb, vb) :: btl => ka = kb && pyEq va vb && pyEqKVs atl btl
  | _, _ => false

end

def assocLookup : List (String × Value) → String → Option Value
  | [], _ => none
  | (k, v) :: rest, key => if k = key then some v else assocLookup rest key

/-- dict.get(key, default).  Returns the stored value (which may be null)
when the key is present, the default otherwise; raises AttributeError when
the receiver is not a dict, exactly as Python does. -/
def Value.pyGetD (v : Value) (key : String) (dflt : Value) : Except PyErr Value :=
  match v with
  | .dict kvs => .ok ((assocLookup kvs key).getD dflt)
  | _ => .error .attributeError

/-- Python truthiness: empty containers, empty strings, zero, False and
None are falsy. -/
def Value.isTruthy : Value → Bool
  | .str s => s != ""
  | .num n => n != 0
  | .bool b => b
  | .null => false
  | .list xs => !xs.isEmpty
  | .dict kvs => !kvs.isEmpty

def Value.isNull : Value → Bool
  | .null => true
  | _ => false

def Value.isList : Value → Bool
  | .list _ => true
  | _ => false

def Value.isDict : Value → Bool
  | .dict _ => true
  | _ => false

/-- Python iteration: for x in v.  Lists yield their elements, dicts their
keys, strings their characters; other values raise TypeError. -/
def pyIter : Value → Except PyErr (List Value)
  | .list xs => .ok xs
  | .dict kvs => .ok (kvs.map (fun kv => Value.str kv.1))
  | .str s => .ok (s.data.map (fun c => Value.str (String.mk [c])))
  | _ => .error .typeError

def digitsValAux : List Char → Nat → Option Nat
  | [], acc => some acc
  | c :: t, acc => if c.isDigit then digitsValAux t (acc * 10 + (c.toNat - 48)) else none

def digitsToNat : List Char → Option Nat
  | [] => none
  | l => digitsValAux l 0

def isPySpace (c : Char) : Bool := c = ' ' || c = '\t' || c = '\n' || c = '\r'

def stripSpaces (l : List Char) : List Char :=
  ((l.dropWhile isPySpace).reverse.dropWhile isPySpace).reverse

/-- int(s) for a string: optional sign, then decimal digits, with
surrounding whitespace allowed. -/
def pyIntOfStr (s : String) : Option Int :=
  match stripSpaces s.data with
  | '-' :: rest => (digitsToNat rest).map (fun n => -(n : Int))
  | '+' :: rest => (digitsToNat rest).map (fun n => (n : Int))
  | l => (digitsToNat l).map (fun n => (n : Int))

/-- int(v): ints are returned, bools coerce to 0/1, numeric strings parse,
and every other value fails (ValueError or TypeError in Python, both caught
by the rules that coerce). -/
def pyInt : Value → Option Int
  | .num n => some n
  | .bool b => some (if b then 1 else 0)
  | .str s => pyIntOfStr s
  | _ => none

def hasPrefixChars : List Char → List Char → Bool
  | [], _ => true
  | _ :: _, [] => false
  | c :: cs, d :: ds => c = d && hasPrefixChars cs ds

def containsChars (needle : List Char) : List Char → Bool
  | [] => needle.isEmpty
  | c :: t => hasPrefixChars needle (c :: t) || containsChars needle t

/-- Python substring test: needle in hay. -/
def strIn (needle hay : String) : Bool := containsChars needle.data hay.data

def asciiLower (c : Char) : Char :=
  if c.toNat ≥ 65 && c.toNat ≤ 90 then Char.ofNat (c.toNat + 32) else c

/-- str.lower() (ASCII range). -/
def lowerString (s : String) : String := ⟨s.data.map asciiLower⟩

mutual

/-- compute_rules._extract_userdata_strings: recursively extract string
literals from CloudFormation UserData, handling Fn::Base64, Fn::Sub,
Fn::Join and nested structures. -/
def extractUserdataStrings : Value → List String
  | .str s => [s]
  | .dict kvs => extractKVs kvs
  | .list items => extractMany items
  | _ => []

/-- The list branch and the item loops of _extract_userdata_strings:
strings.extend applied to each element in order. -/
def extractMany : List Value → List String
  | [] => []
  | v :: vs => extractUserdataStrings v ++ extractMany vs

/-- The dict branch of _extract_userdata_strings: each key/value pair in
insertion order; Fn::Base64 and Fn::Sub recurse into the value, Fn::Join
recurses into the items of a two-element [separator, items] argument
(wrapping a non-list items as a one-element list), every other key
recurses into the value. -/
def extractKVs : List (String × Value) → List String
  | [] => []
  | (k, v) :: rest =>
    (if k = "Fn::Base64" ∨ k = "Fn::Sub" then
      extractUserdataStrings v
    else if k = "Fn::Join" then
      match v with
      | .list [_sep, itemsNode] =>
        match itemsNode with
        | .list items => extractMany items
        | other => extractUserdataStrings other
      | _ => []
    else
      extractUserdataStrings v) ++ extractKVs rest

end

/-- compute_rules._get_userdata_script: the resolved UserData fragments
joined with newlines, or none when Properties or UserData is absent or
falsy. -/
def getUserdataScript (conf : Value) : Except PyErr (Option String) :=
  match conf.pyGetD "Properties" (.dict []) with
  | .error e => .error e
  | .ok properties =>
    if !properties.isTruthy then .ok none
    else
      match properties.pyGetD "UserData" .null with
      | .error e => .error e
      | .ok userdata =>
        if !userdata.isTruthy then .ok none
        else .ok (some (String.intercalate "\n" (extractUserdataStrings userdata)))

def isQuoteChar (c : Char) : Bool := c = '"' || c.toNat = 39

def spanDigits : List Char → List Char × List Char
  | [] => ([], [])
  | c :: t =>
    if c.isDigit then
      match spanDigits t with
      | (a, b) => (c :: a, b)
    else ([], c :: t)

/-- One attempted match of compute_rules.UNSAFE_PORT_BINDING at the head of
the character list: a quote, one or more digits, a colon, one or more
digits, a quote.  Returns the number of characters the match consumes.
Maximal munch coincides with the regex here because a digit run is always
followed by a non-digit requirement. -/
def matchUnsafeLen : List Char → Option Nat
  | [] => none
  | c :: rest =>
    if isQuoteChar c then
      match spanDigits rest with
      | (d₁, r₁) =>
        match d₁, r₁ with
        | _ :: _, c₁ :: r₂ =>
          if c₁ = ':' then
            match spanDigits r₂ with
            | (d₂, r₃) =>
              match d₂, r₃ with
              | _ :: _, c₂ :: _ =>
                if isQuoteChar c₂ then some (d₁.length + d₂.length + 3) else none
              | _, _ => none
          else none
        | _, _ => none
    else none

def dropLiteral : List Char → List Char → Option (List Char)
  | [], l => some l
  | _ :: _, [] => none
  | c :: cs, d :: ds => if c = d then dropLiteral cs ds else none

/-- One attempted match of compute_rules.SAFE_PORT_BINDING at the head of
the character list: a quote, the literal 127.0.0.1:, digits, a colon,
digits, a quote. -/
def matchSafeLen : List Char → Option Nat
  | [] => none
  | c :: rest =>
    if isQuoteChar c then
      match dropLiteral "127.0.0.1:".data rest with
      | none => none
      | some r₁ =>
        match spanDigits r₁ with
        | (d₁, r₂) =>
          match d₁, r₂ with
          | _ :: _, c₁ :: r₃ =>
            if c₁ = ':' then
              match spanDigits r₃ with
              | (d₂, r₄) =>
                match d₂, r₄ with
                | _ :: _, c₂ :: _ =>
                  if isQuoteChar c₂ then some (d₁.length + d₂.length + 13) else none
                | _, _ => none
            else none
          | _, _ => none
    else none

/-- re.findall counting: scan left to right, count non-overlapping matches,
resuming after each match.  The fuel argument is the list length; each step
consumes at least one character per fuel unit, so the fuel never runs out
before the scan finishes. -/
def countBindings (matchLen : List Char → Option Nat) : Nat → List Char → Nat
  | 0, _ => 0
  | _ + 1, [] => 0
  | fuel + 1, c :: t =>
    match matchLen (c :: t) with
    | some k => 1 + countBindings matchLen fuel (List.drop (k - 1) t)
    | none => countBindings matchLen fuel t

/-- len(UNSAFE_PORT_BINDING.findall(script)). -/
def countUnsafeBindings (s : String) : Nat := countBindings matchUnsafeLen s.data.length s.data

/-- len(SAFE_PORT_BINDING.findall(script)). -/
def countSafeBindings (s : String) : Nat := countBindings matchSafeLen s.data.length s.data

/-- compute_rules.DockerPortsBindLoopback.scan_resource_conf
(CKV_CUSTOM_COMPUTE_4). -/
def dockerPortsScan (conf : Value) : Except PyErr CheckResult :=
  match getUserdataScript conf with
  | .error e => .error e
  | .ok none => .ok .PASSED
  | .ok (some s) =>
    if s = "" then .ok .PASSED
    else if !strIn "docker" (lowerString s) then .ok .PASSED
    else if !strIn "ports:" s then .ok .PASSED
    else if countUnsafeBindings s ≠ 0 ∧ countSafeBindings s = 0 then .ok .FAILED
    else if countSafeBindings s < countUnsafeBindings s then .ok .FAILED
    else .ok .PASSED

/-- The loop body of iam_rules.IamRoleHasPermissionsBoundary
._is_service_linked_role: a dict statement whose Principal.Service is a
string containing amazonaws.com and either starting with elasticmapreduce
or containing autoscaling. -/
def isServiceLinkedStmt (stmt : Value) : Bool :=
  match stmt with
  | .dict kvs =>
    match (assocLookup kvs "Principal").getD (.dict []) with
    | .dict pkvs =>
      match (assocLookup pkvs "Service").getD (.str "") with
      | .str s =>
        strIn "amazonaws.com" s &&
          (hasPrefixChars "elasticmapreduce".data s.data || strIn "autoscaling" s)
      | _ => false
    | _ => false
  | _ => false

/-- iam_rules.IamRoleHasPermissionsBoundary._is_service_linked_role. -/
def isServiceLinkedRole (assumeDoc : Value) : Except PyErr Bool :=
  match assumeDoc.pyGetD "Statement" (.list []) with
  | .error e => .error e
  | .ok stmts =>
    match pyIter stmts with
    | .error e => .error e
    | .ok stmtList => .ok (stmtList.any isServiceLinkedStmt)

/-- iam_rules.IamRoleHasPermissionsBoundary.scan_resource_conf
(CKV_CUSTOM_IAM_1). -/
def iamBoundaryScan (conf : Value) : Except PyErr CheckResult :=
  match conf.pyGetD "Properties" (.dict []) with
  | .error e => .error e
  | .ok properties =>
    if !properties.isTruthy then .ok .FAILED
    else
      match properties.pyGetD "PermissionsBoundary" .null with
      | .error e => .error e
      | .ok pb =>
        if pb.isTruthy then .ok .PASSED
        else
          match properties.pyGetD "AssumeRolePolicyDocument" (.dict []) with
          | .error e => .error e
          | .ok assumeDoc =>
            match isServiceLinkedRole assumeDoc with
            | .error e => .error e
            | .ok slr => .ok (if slr then .PASSED else .FAILED)

/-- asg_rules.AsgMinSizeHA.scan_resource_conf (CKV_CUSTOM_ASG_2): FAILED
without properties or MinSize, UNKNOWN when int(MinSize) fails, PASSED iff
the coerced value is at least 2. -/
def asgMinSizeScan (conf : Value) : Except PyErr CheckResult :=
  match conf.pyGetD "Properties" (.dict []) with
  | .error e => .error e
  | .ok properties =>
    if !properties.isTruthy then .ok .FAILED
    else
      match properties.pyGetD "MinSize" .null with
      | .error e => .error e
      | .ok minSize =>
        if minSize.isNull then .ok .FAILED
        else
          match pyInt minSize with
          | none => .ok .UNKNOWN
          | some n => if n ≥ 2 then .ok .PASSED else .ok .FAILED

/-- The statement loop of sqs_ssl_enabled.SqsQueuePolicyEnforcesSSL: a dict
statement with Effect Deny whose Condition.Bool maps aws:SecureTransport to
the string false returns PASSED; no normalization of a non-list Statement
field happens before this loop. -/
def sqsLoop : List Value → Except PyErr CheckResult
  | [] => .ok .FAILED
  | stmt :: rest =>
    match stmt with
    | .dict kvs =>
      if !pyEq ((assocLookup kvs "Effect").getD .null) (.str "Deny") then sqsLoop rest
      else
        match ((assocLookup kvs "Condition").getD (.dict [])).pyGetD "Bool" (.dict []) with
        | .error e => .error e
        | .ok boolConds =>
          match boolConds.pyGetD "aws:SecureTransport" .null with
          | .error e => .error e
          | .ok st =>
            if pyEq st (.str "false") then .ok .PASSED else sqsLoop rest
    | _ => sqsLoop rest

/-- sqs_ssl_enabled.SqsQueuePolicyEnforcesSSL.scan_resource_conf
(CKV_CUSTOM_SQS_1). -/
def sqsScan (conf : Value) : Except PyErr CheckResult :=
  match conf.pyGetD "Properties" (.dict []) with
  | .error e => .error e
  | .ok properties =>
    if properties.isNull then .ok .FAILED
    else
      match properties.pyGetD "PolicyDocument" (.dict []) with
      | .error e => .error e
      | .ok policyDoc =>
        if !policyDoc.isTruthy then .ok .FAILED
        else
          match policyDoc.pyGetD "Statement" (.list []) with
          | .error e => .error e
          | .ok stmtsVal =>
            match pyIter stmtsVal with
            | .error e => .error e
            | .ok stmts => sqsLoop stmts

/-- The statement loop of sns_rules.SnsSslEnforcement: as the SQS loop, but
the passing test is membership in the two-element list of the string false
and the boolean False (with the Python numeric coercion on the latter). -/
def snsLoop : List Value → Except PyErr CheckResult
  | [] => .ok .FAILED
  | stmt :: rest =>
    match stmt with
    | .dict kvs =>
      if !pyEq ((assocLookup kvs "Effect").getD (.str "")) (.str "Deny") then snsLoop rest
      else
        match ((assocLookup kvs "Condition").getD (.dict [])).pyGetD "Bool" (.dict []) with
        | .error e => .error e
        | .ok boolConds =>
          match boolConds.pyGetD "aws:SecureTransport" .null with
          | .error e => .error e
          | .ok st =>
            if pyEq st (.str "false") || pyEq st (.bool false) then .ok .PASSED
            else snsLoop rest
    | _ => snsLoop rest

/-- sns_rules.SnsSslEnforcement.scan_resource_conf (CKV_CUSTOM_SNS_2).
A non-list Statement field is normalized to a one-element list. -/
def snsSslScan (conf : Value) : Except PyErr CheckResult :=
  match conf.pyGetD "Properties" (.dict []) with
  | .error e => .error e
  | .ok properties =>
    if !properties.isTruthy then .ok .FAILED
    else
      match properties.pyGetD "PolicyDocument" (.dict []) with
      | .error e => .error e
      | .ok policyDoc =>
        match policyDoc.pyGetD "Statement" (.list []) with
        | .error e => .error e
        | .ok stmtsVal =>
          snsLoop (match stmtsVal with
            | .list xs => xs
            | v => [v])

/-- The statement loop of kms_rules.KmsNoWildcardActions: an Allow
statement whose Action entries (a string wrapped as a one-element list,
anything else iterated) contain the exact token kms:* returns FAILED. -/
def kmsLoop : List Value → Except PyErr CheckResult
  | [] => .ok .PASSED
  | stmt :: rest =>
    match stmt with
    | .dict kvs =>
      if !pyEq ((assocLookup kvs "Effect").getD (.str "")) (.str "Allow") then kmsLoop rest
      else
        match (match (assocLookup kvs "Action").getD (.list []) with
               | .str s => Except.ok [Value.str s]
               | v => pyIter v) with
        | .error e => .error e
        | .ok actions =>
          if actions.any (fun a => pyEq a (.str "kms:*")) then .ok .FAILED else kmsLoop rest
    | _ => kmsLoop rest

/-- The tail of kms_rules.KmsNoWildcardActions.scan_resource_conf after the
key policy has been resolved to a value: a non-list Statement field is
normalized to a one-element list, then the loop runs. -/
def kmsStatementsPart (keyPolicy : Value) : Except PyErr CheckResult :=
  match keyPolicy.pyGetD "Statement" (.list []) with
  | .error e => .error e
  | .ok stmtsVal =>
    kmsLoop (match stmtsVal with
      | .list xs => xs
      | v => [v])

/-- kms_rules.KmsNoWildcardActions.scan_resource_conf (CKV_CUSTOM_KMS_1).
jsonLoads abstracts json.loads for a string-valued key policy: some for a
successful parse, none for JSONDecodeError (which yields UNKNOWN). -/
def kmsScan (jsonLoads : String → Option Value) (conf : Value) : Except PyErr CheckResult :=
  match conf.pyGetD "Properties" (.dict []) with
  | .error e => .error e
  | .ok properties =>
    if !properties.isTruthy then .ok .PASSED
    else
      match properties.pyGetD "KeyPolicy" .null with
      | .error e => .error e
      | .ok keyPolicy =>
        if !keyPolicy.isTruthy then .ok .PASSED
        else
          match keyPolicy with
          | .str s =>
            match jsonLoads s with
            | none => .ok .UNKNOWN
            | some parsed => kmsStatementsPart parsed
          | kp => kmsStatementsPart kp

/-- sg_rules._parse_ports: read FromPort and ToPort, coerce both with int()
inside one try, and return the pair of optional ints, or (None, None) when
either coercion fails. -/
def parsePorts (kvs : List (String × Value)) : Option Int × Option Int :=
  let f := (assocLookup kvs "FromPort").getD .null
  let t := (assocLookup kvs "ToPort").getD .null
  let cf : Option (Option Int) := if f.isNull then some none else (pyInt f).map some
  let ct : Option (Option Int) := if t.isNull then some none else (pyInt t).map some
  match cf, ct with
  | some a, some b => (a, b)
  | _, _ => (none, none)

/-- The loop body of sg_rules.SecurityGroupNoSSH: a dict rule whose parsed
port pair brackets port 22. -/
def sshRuleFails (rule : Value) : Bool :=
  match rule with
  | .dict kvs =>
    match parsePorts kvs with
    | (some f, some t) => decide (f ≤ 22 ∧ 22 ≤ t)
    | _ => false
  | _ => false

/-- sg_rules.SecurityGroupNoSSH.scan_resource_conf (CKV_CUSTOM_SG_1). -/
def sgNoSshScan (conf : Value) : Except PyErr CheckResult :=
  match conf.pyGetD "Properties" (.dict []) with
  | .error e => .error e
  | .ok properties =>
    if !properties.isTruthy then .ok .PASSED
    else
      match properties.pyGetD "SecurityGroupIngress" (.list []) with
      | .error e => .error e
      | .ok ingress =>
        match pyIter ingress with
        | .error e => .error e
        | .ok rules => .ok (if rules.any sshRuleFails then .FAILED else .PASSED)

/-- sg_rules.SecurityGroupNoFullPortRange._check_rule: FAILED when both
ports parse and the span is at least MAX_PORT_RANGE = 1000. -/
def checkRuleSpan (rule : Value) : CheckResult :=
  match rule with
  | .dict kvs =>
    match parsePorts kvs with
    | (some f, some t) => if t - f ≥ 1000 then .FAILED else .PASSED
    | _ => .PASSED
  | _ => .PASSED

/-- sg_rules.SecurityGroupNoFullPortRange.scan_resource_conf
(CKV_CUSTOM_SG_3). -/
def sgNoFullPortRangeScan (conf : Value) : Except PyErr CheckResult :=
  match conf.pyGetD "Type" (.str "") with
  | .error e => .error e
  | .ok resourceType =>
    match conf.pyGetD "Properties" (.dict []) with
    | .error e => .error e
    | .ok properties =>
      if !properties.isTruthy then .ok .PASSED
      else if pyEq resourceType (.str "AWS::EC2::SecurityGroupIngress") then
        .ok (checkRuleSpan properties)
      else
        match properties.pyGetD "SecurityGroupIngress" (.list []) with
        | .error e => .error e
        | .ok ingress =>
          match pyIter ingress with
          | .error e => .error e
          | .ok rules =>
            .ok (if rules.any (fun r => checkRuleSpan r = .FAILED) then .FAILED else .PASSED)

/-- The ARN filter of iam_rules.IamRoleLimitManagedPolicies: only string
entries starting with arn:aws:iam::aws:policy/ count. -/
def isAwsManagedArn : Value → Bool
  | .str s => hasPrefixChars "arn:aws:iam::aws:policy/".data s.data
  | _ => false

/-- iam_rules.IamRoleLimitManagedPolicies.scan_resource_conf
(CKV_CUSTOM_IAM_4): PASSED iff at most MAX_MANAGED_POLICIES = 3 AWS-managed
policy ARNs are counted; a non-list ManagedPolicyArns is wrapped as a
one-element list. -/
def iamLimitScan (conf : Value) : Except PyErr CheckResult :=
  match conf.pyGetD "Properties" (.dict []) with
  | .error e => .error e
  | .ok properties =>
    if !properties.isTruthy then .ok .PASSED
    else
      match properties.pyGetD "ManagedPolicyArns" (.list []) with
      | .error e => .error e
      | .ok mpVal =>
        let managed := match mpVal with
          | .list xs => xs
          | v => [v]
        if (managed.filter isAwsManagedArn).length ≤ 3 then .ok .PASSED else .ok .FAILED

/-- ebs_rules.EbsCustomerManagedKms.scan_resource_conf (CKV_CUSTOM_EBS_1). -/
def ebsCmkScan (conf : Value) : Except PyErr CheckResult :=
  match conf.pyGetD "Properties" (.dict []) with
  | .error e => .error e
  | .ok properties =>
    if !properties.isTruthy then .ok .FAILED
    else
      match properties.pyGetD "Encrypted" (.bool false) with
      | .error e => .error e
      | .ok encrypted =>
        if !encrypted.isTruthy then .ok .FAILED
        else
          match properties.pyGetD "KmsKeyId" .null with
          | .error e => .error e
          | .ok kmsKeyId =>
            if kmsKeyId.isTruthy &&
                !(pyEq kmsKeyId .null || pyEq kmsKeyId (.str "") || pyEq kmsKeyId (.dict [])) then
              .ok .PASSED
            else .ok .FAILED

/-- logging_rules.LogGroupRetentionProd.scan_resource_conf
(CKV_CUSTOM_VPC_2): FAILED only when Properties is literally null; PASSED
when RetentionInDays is unset; UNKNOWN when int() fails on it; otherwise
the MINIMUM_RETENTION_DAYS = 90 comparison decides. -/
def logRetentionScan (conf : Value) : Except PyErr CheckResult :=
  match conf.pyGetD "Properties" (.dict []) with
  | .error e => .error e
  | .ok properties =>
    if properties.isNull then .ok .FAILED
    else
      match properties.pyGetD "RetentionInDays" .null with
      | .error e => .error e
      | .ok retention =>
        if retention.isNull then .ok .PASSED
        else
          match pyInt retention with
          | none => .ok .UNKNOWN
          | some n => if n ≥ 90 then .ok .PASSED else .ok .FAILED

/-- ebs_rules.EbsBackupStrategy.scan_resource_conf (CKV_CUSTOM_EBS_3): the
body is a single return of FAILED. -/
def ebsBackupScan (_conf : Value) : Except PyErr CheckResult := .ok .FAILED

/-- Shape condition under which AsgMinSizeHA.scan_resource_conf cannot
raise: the configuration is a dict and its Properties entry, when truthy,
is a dict. -/
def asgShapeOK : Value → Bool
  | .dict kvs =>
    !((assocLookup kvs "Properties").getD (.dict [])).isTruthy ||
      ((assocLookup kvs "Properties").getD (.dict [])).isDict
  | _ => false

/-- Values Python can iterate without raising. -/
def iterOK : Value → Bool
  | .list _ => true
  | .dict _ => true
  | .str _ => true
  | _ => false

/-- The Properties-level part of the no-raise shape condition for
IamRoleHasPermissionsBoundary.scan_resource_conf: a truthy Properties
value must be a dict; when its PermissionsBoundary entry is falsy, the
AssumeRolePolicyDocument entry must default to or be a dict whose
Statement entry defaults to or is iterable. -/
def iamPropsOK (p : Value) : Bool :=
  if !p.isTruthy then true
  else
    match p with
    | .dict pk =>
      if ((assocLookup pk "PermissionsBoundary").getD .null).isTruthy then true
      else
        match (assocLookup pk "AssumeRolePolicyDocument").getD (.dict []) with
        | .dict ak => iterOK ((assocLookup ak "Statement").getD (.list []))
        | _ => false
    | _ => false

/-- Shape condition under which IamRoleHasPermissionsBoundary
.scan_resource_conf cannot raise: the configuration is a dict whose
Properties entry satisfies iamPropsOK. -/
def iamShapeOK : Value → Bool
  | .dict kvs => iamPropsOK ((assocLookup kvs "Properties").getD (.dict []))
  | _ => false

/-- A policy statement of the shape CDK emits for SSL enforcement: effect
Deny and a Bool condition bucket mapping aws:SecureTransport to the given
serialization of false. -/
def denySslStmt (v : Value) : Value :=
  .dict [("Effect", .str "Deny"),
         ("Condition", .dict [("Bool", .dict [("aws:SecureTransport", v)])])]

/-- A queue or topic policy configuration whose PolicyDocument has the
given Statement field. -/
def mkPolicyConf (stmts : Value) : Value :=
  .dict [("Properties", .dict [("PolicyDocument", .dict [("Statement", stmts)])])]

theorem dict_isTruthy_of_lookup (l : List (String × Value)) (k : String) (v : Value)
    (h : assocLookup l k = some v) : (Value.dict l).isTruthy = true := by
  cases l with
  | nil => simp [assocLookup] at h
  | cons a t => simp [Value.isTruthy, List.isEmpty]

theorem pyIter_ok_of_iterOK (v : Value) (h : iterOK v = true) :
    ∃ l, pyIter v = .ok l := by
  cases v <;> simp [iterOK] at h <;> exact ⟨_, rfl⟩

theorem isNull_false_of_ne (v : Value) (h : v ≠ .null) : v.isNull = false := by
  cases v <;> first
    | rfl
    | exact absurd rfl h

/-- Claim C1: the intrinsic resolver _extract_userdata_strings is
order-preserving: a two-element list resolves to the concatenation of the
resolutions of its elements in order; a join node with a two-element
[separator, items] argument resolves exactly like the plain list of its
items, so the separator is never inspected and the output is invariant
under replacing the separator; a non-list items argument is treated as a
one-element list. -/
theorem claim1_resolver_order :
    (∀ a b : Value,
      extractUserdataStrings (.list [a, b]) =
        extractUserdataStrings a ++ extractUserdataStrings b)
    ∧ (∀ (sep : Value) (items : List Value),
      extractUserdataStrings (.dict [("Fn::Join", .list [sep, .list items])]) =
        extractUserdataStrings (.list items))
    ∧ (∀ (sep₁ sep₂ itemsNode : Value),
      extractUserdataStrings (.dict [("Fn::Join", .list [sep₁, itemsNode])]) =
        extractUserdataStrings (.dict [("Fn::Join", .list [sep₂, itemsNode])]))
    ∧ (∀ (sep n : Value), n.isList = false →
      extractUserdataStrings (.dict [("Fn::Join", .list [sep, n])]) =
        extractUserdataStrings n) := by
  refine ⟨?_, ?_, ?_, ?_⟩
  · intro a b
    simp [extractUserdataStrings, extractMany]
  · intro sep items
    simp [extractUserdataStrings, extractKVs]
  · intro sep₁ sep₂ itemsNode
    cases itemsNode <;> simp [extractUserdataStrings, extractKVs]
  · intro sep n h
    cases n <;> simp_all [extractUserdataStrings, extractKVs, Value.isList]

/-- Witness for claim C1 at a concrete join node with a single non-list
items argument. -/
theorem claim1_witness :
    (Value.str "echo hi").isList = false ∧
    extractUserdataStrings (.dict [("Fn::Join", .list [.str ",", .str "echo hi"])]) =
      extractUserdataStrings (.str "echo hi") :=
  ⟨rfl, claim1_resolver_order.2.2.2 (.str ",") (.str "echo hi") rfl⟩

/-- Claim C10: the backup-strategy predicate (CKV_CUSTOM_EBS_3) returns
FAILED for every input configuration; it is a constant function. -/
theorem claim10_backup_always_failed :
    ∀ conf : Value, ebsBackupScan conf = .ok .FAILED :=
  fun _ => rfl

/-- Claim C4 counterexample: a queue policy whose only statement encodes
the deny-insecure-transport condition with the boolean false serialization
is rejected by the SQS predicate (FAILED), although the claim demands
PASSED for both serializations; the SNS predicate accepts the same
document. -/
theorem claim4_counterexample :
    sqsScan (mkPolicyConf (.list [denySslStmt (.bool false)])) = .ok .FAILED
    ∧ snsSslScan (mkPolicyConf (.list [denySslStmt (.bool false)])) = .ok .PASSED :=
  ⟨rfl, rfl⟩

/-- Claim C4 (amended): for a policy document whose statement list starts
with a deny statement whose Bool condition bucket maps aws:SecureTransport
to a false value, the SNS predicate returns PASSED for both the string and
the boolean serialization, while the SQS predicate returns PASSED only for
the string serialization and FAILED for a document whose only statement
uses the boolean serialization. -/
theorem claim4_amended :
    ∀ rest : List Value,
      sqsScan (mkPolicyConf (.list (denySslStmt (.str "false") :: rest))) = .ok .PASSED
      ∧ snsSslScan (mkPolicyConf (.list (denySslStmt (.str "false") :: rest))) = .ok .PASSED
      ∧ snsSslScan (mkPolicyConf (.list (denySslStmt (.bool false) :: rest))) = .ok .PASSED
      ∧ sqsScan (mkPolicyConf (.list [denySslStmt (.bool false)])) = .ok .FAILED :=
  fun _ => ⟨rfl, rfl, rfl, rfl⟩

/-- Claim C5 counterexample: the SQS predicate does not normalize a
document whose Statement field is a single statement object: the same
passing statement yields FAILED when given bare and PASSED when wrapped in
a one-element list, so the two verdicts differ. -/
theorem claim5_counterexample :
    sqsScan (mkPolicyConf (denySslStmt (.str "false"))) = .ok .FAILED
    ∧ sqsScan (mkPolicyConf (.list [denySslStmt (.str "false")])) = .ok .PASSED :=
  ⟨rfl, rfl⟩

/-- Claim C5 (amended): the SNS and KMS predicates normalize a non-list
Statement field to a one-element list, so their verdict on a document with
Statement S equals their verdict on the same document with Statement [S];
the SQS predicate does not (see the counterexample). -/
theorem claim5_amended :
    ∀ (jsonLoads : String → Option Value) (d : List (String × Value)) (S : Value),
      S.isList = false →
      (snsSslScan (.dict [("Properties",
          .dict [("PolicyDocument", .dict (("Statement", S) :: d))])]) =
        snsSslScan (.dict [("Properties",
          .dict [("PolicyDocument", .dict (("Statement", .list [S]) :: d))])]))
      ∧ (kmsScan jsonLoads (.dict [("Properties",
          .dict [("KeyPolicy", .dict (("Statement", S) :: d))])]) =
        kmsScan jsonLoads (.dict [("Properties",
          .dict [("KeyPolicy", .dict (("Statement", .list [S]) :: d))])])) := by
  intro jsonLoads d S h
  constructor
  · cases S <;>
      simp_all [snsSslScan, Value.pyGetD, assocLookup, Value.isTruthy, Value.isList]
  · cases S <;>
      simp_all [kmsScan, kmsStatementsPart, Value.pyGetD, assocLookup,
        Value.isTruthy, Value.isList]

/-- Witness for claim C5 at a concrete single deny statement. -/
theorem claim5_witness :
    (snsSslScan (.dict [("Properties",
        .dict [("PolicyDocument", .dict [("Statement", denySslStmt (.str "false"))])])]) =
      snsSslScan (.dict [("Properties",
        .dict [("PolicyDocument", .dict [("Statement", .list [denySslStmt (.str "false")])])])]))
    ∧ (kmsScan (fun _ => none) (.dict [("Properties",
        .dict [("KeyPolicy", .dict [("Statement", denySslStmt (.str "false"))])])]) =
      kmsScan (fun _ => none) (.dict [("Properties",
        .dict [("KeyPolicy", .dict [("Statement", .list [denySslStmt (.str "false")])])])])) :=
  claim5_amended (fun _ => none) [] (denySslStmt (.str "false")) rfl

/-- Claim C2 counterexample: a configuration whose Properties value is the
truthy non-mapping string x makes both cited predicates raise
AttributeError (properties.get on a str), so not every malformed input
yields a verdict. -/
theorem claim2_counterexample :
    iamBoundaryScan (.dict [("Properties", .str "x")]) = .error .attributeError
    ∧ asgMinSizeScan (.dict [("Properties", .str "x")]) = .error .attributeError :=
  ⟨rfl, rfl⟩

/-- Claim C2 (amended): the two cited predicates return a verdict without
raising on every configuration of the stated shape (a dict whose
Properties entry, when truthy, is a dict, and, for the IAM predicate,
whose trust-policy document and statement list are of the types the code
accesses), and int coercion failures in AsgMinSizeHA are caught locally
and yield UNKNOWN; a truthy non-mapping Properties value raises (see the
counterexample). -/
theorem claim2_amended :
    (∀ conf : Value, asgShapeOK conf = true → ∃ r, asgMinSizeScan conf = .ok r)
    ∧ (∀ conf : Value, iamShapeOK conf = true → ∃ r, iamBoundaryScan conf = .ok r)
    ∧ (∀ (kvs pk : List (String × Value)) (v : Value),
        assocLookup kvs "Properties" = some (.dict pk) →
        (Value.dict pk).isTruthy = true →
        assocLookup pk "MinSize" = some v →
        v ≠ .null →
        pyInt v = none →
        asgMinSizeScan (.dict kvs) = .ok .UNKNOWN) := by
  refine ⟨?_, ?_, ?_⟩
  · intro conf h
    cases conf with
    | dict kvs =>
      cases hv : (assocLookup kvs "Properties").getD (.dict []) with
      | dict pk =>
        by_cases ht : (Value.dict pk).isTruthy
        · simp only [asgMinSizeScan, Value.pyGetD, hv, ht, Bool.not_true,
            Bool.false_eq_true, if_false]
          cases hm : (assocLookup pk "MinSize").getD .null <;>
            simp only [Value.isNull] <;>
            first
              | exact ⟨_, rfl⟩
              | (cases hi : pyInt _ <;> simp only [hi] <;> split_ifs <;> exact ⟨_, rfl⟩)
        · simp [asgMinSizeScan, Value.pyGetD, hv, ht]
      | _ =>
        simp only [asgShapeOK, hv, Value.isDict, Bool.or_false] at h
        simp_all [asgMinSizeScan, Value.pyGetD, Value.isTruthy]
    | _ => simp [asgShapeOK] at h
  · intro conf h
    cases conf with
    | dict kvs =>
      cases hv : (assocLookup kvs "Properties").getD (.dict []) with
      | dict pk =>
        simp only [iamShapeOK, hv, iamPropsOK] at h
        by_cases ht : (Value.dict pk).isTruthy
        · simp only [ht, Bool.not_true, Bool.false_eq_true, if_false] at h
          simp only [iamBoundaryScan, Value.pyGetD, hv, ht, Bool.not_true,
            Bool.false_eq_true, if_false]
          by_cases hpb : ((assocLookup pk "PermissionsBoundary").getD .null).isTruthy
          · simp [hpb]
          · simp only [hpb, Bool.false_eq_true, if_false] at h ⊢
            cases had : (assocLookup pk "AssumeRolePolicyDocument").getD (.dict []) with
            | dict ak =>
              simp only [had] at h
              obtain ⟨l, hl⟩ := pyIter_ok_of_iterOK _ h
              simp only [isServiceLinkedRole, Value.pyGetD, hl]
              split_ifs <;> exact ⟨_, rfl⟩
            | _ => simp [had] at h
        · simp [iamBoundaryScan, Value.pyGetD, hv, ht]
      | _ =>
        simp only [iamShapeOK, hv, iamPropsOK, Value.isTruthy] at h
        simp_all [iamBoundaryScan, Value.pyGetD, Value.isTruthy]
    | _ => simp [iamShapeOK] at h
  · intro kvs pk v hP ht hm hne hi
    simp [asgMinSizeScan, Value.pyGetD, hP, ht, hm, isNull_false_of_ne v hne, hi]

/-- Witness for claim C2: a well-shaped configuration with a non-numeric
MinSize gets a verdict, namely UNKNOWN. -/
theorem claim2_witness :
    (∃ r, asgMinSizeScan
      (.dict [("Properties", .dict [("MinSize", .str "abc")])]) = .ok r)
    ∧ asgMinSizeScan
      (.dict [("Properties", .dict [("MinSize", .str "abc")])]) = .ok .UNKNOWN :=
  ⟨claim2_amended.1 _ rfl,
   claim2_amended.2.2 _ _ _ rfl rfl rfl (fun h => Value.noConfusion h) rfl⟩

/-- Claim C3 counterexample: a user-data script with docker, the ports:
syntax, one unsafe binding and one safe binding has equal unsafe and safe
counts with an unsafe binding present, so the claim demands FAILED, but
the predicate returns PASSED (the code fails only on strictly more unsafe
than safe bindings). -/
theorem claim3_counterexample :
    dockerPortsScan (.dict [("Properties", .dict [("UserData",
        .str "docker\nports:\n- \"8080:8080\"\n- \"127.0.0.1:9090:9090\"")])]) = .ok .PASSED
    ∧ countUnsafeBindings "docker\nports:\n- \"8080:8080\"\n- \"127.0.0.1:9090:9090\"" = 1
    ∧ countSafeBindings "docker\nports:\n- \"8080:8080\"\n- \"127.0.0.1:9090:9090\"" = 1 :=
  ⟨rfl, rfl, rfl⟩

/-- Claim C3 (amended): for every EC2 instance whose resolved user-data
script is non-empty, contains docker case-insensitively and contains the
ports: syntax, the predicate returns FAILED exactly when the count of
unsafe (non-loopback) bindings strictly exceeds the count of safe
(loopback-prefixed) bindings, and PASSED otherwise; at equal non-zero
counts it returns PASSED. -/
theorem claim3_amended :
    ∀ (conf : Value) (s : String),
      getUserdataScript conf = .ok (some s) → s ≠ "" →
      strIn "docker" (lowerString s) = true →
      strIn "ports:" s = true →
      (dockerPortsScan conf = .ok .FAILED ↔ countSafeBindings s < countUnsafeBindings s)
      ∧ (dockerPortsScan conf = .ok .PASSED ↔ countUnsafeBindings s ≤ countSafeBindings s) := by
  intro conf s h hne hdock hports
  simp only [dockerPortsScan, h, hne, hdock, hports, Bool.not_true,
    Bool.false_eq_true, if_false]
  constructor <;> split_ifs with h₁ h₂ <;> simp <;> omega

/-- Witness for claim C3: a script with one unsafe binding and no safe
binding fails the predicate. -/
theorem claim3_witness :
    dockerPortsScan (.dict [("Properties", .dict [("UserData",
        .str "docker\nports:\n- \"8080:8080\"")])]) = .ok .FAILED :=
  ((claim3_amended
      (.dict [("Properties", .dict [("UserData", .str "docker\nports:\n- \"8080:8080\"")])])
      "docker\nports:\n- \"8080:8080\"" rfl (by decide) rfl rfl).1).mpr
    (by decide)

/-- Claim C6: a security-group resource whose only ingress rule parses to
the port pair (20, 23) fails the SSH-ingress predicate (the span brackets
port 22) and passes the full-port-range predicate (the span of 3 is below
the 1000-port threshold). -/
theorem claim6_sg_scenario :
    ∀ (c p r : List (String × Value)),
      assocLookup c "Type" = some (.str "AWS::EC2::SecurityGroup") →
      assocLookup c "Properties" = some (.dict p) →
      assocLookup p "SecurityGroupIngress" = some (.list [.dict r]) →
      parsePorts r = (some 20, some 23) →
      sgNoSshScan (.dict c) = .ok .FAILED
      ∧ sgNoFullPortRangeScan (.dict c) = .ok .PASSED := by
  intro c p r hT hP hI hports
  have hpt : (Value.dict p).isTruthy = true := dict_isTruthy_of_lookup p _ _ hI
  constructor
  · simp [sgNoSshScan, Value.pyGetD, hP, hpt, hI, pyIter, sshRuleFails, hports]
  · simp [sgNoFullPortRangeScan, Value.pyGetD, hT, hP, hpt, hI, pyIter, pyEq,
      checkRuleSpan, hports]

/-- Witness for claim C6 at a concrete security-group configuration with
one ingress rule from port 20 to port 23. -/
theorem claim6_witness :
    sgNoSshScan (.dict [("Type", .str "AWS::EC2::SecurityGroup"),
      ("Properties", .dict [("SecurityGroupIngress",
        .list [.dict [("FromPort", .num 20), ("ToPort", .num 23)]])])]) = .ok .FAILED
    ∧ sgNoFullPortRangeScan (.dict [("Type", .str "AWS::EC2::SecurityGroup"),
      ("Properties", .dict [("SecurityGroupIngress",
        .list [.dict [("FromPort", .num 20), ("ToPort", .num 23)]])])]) = .ok .PASSED :=
  claim6_sg_scenario _ _ [("FromPort", .num 20), ("ToPort", .num 23)] rfl rfl rfl rfl

/-- Claim C7: the managed-policy-count predicate returns PASSED when the
number of AWS-managed policy ARNs in ManagedPolicyArns is exactly the cap
of 3, FAILED when it is 4, and entries that are not AWS-managed ARNs do
not change the count. -/
theorem claim7_managed_policy_cap :
    ∀ (c p : List (String × Value)) (l : List Value),
      assocLookup c "Properties" = some (.dict p) →
      assocLookup p "ManagedPolicyArns" = some (.list l) →
      ((l.filter isAwsManagedArn).length = 3 → iamLimitScan (.dict c) = .ok .PASSED)
      ∧ ((l.filter isAwsManagedArn).length = 4 → iamLimitScan (.dict c) = .ok .FAILED)
      ∧ (∀ v : Value, isAwsManagedArn v = false →
          ((v :: l).filter isAwsManagedArn).length = (l.filter isAwsManagedArn).length) := by
  intro c p l hP hM
  have hpt : (Value.dict p).isTruthy = true := dict_isTruthy_of_lookup p _ _ hM
  refine ⟨?_, ?_, ?_⟩
  · intro h
    simp [iamLimitScan, Value.pyGetD, hP, hpt, hM, h]
  · intro h
    simp [iamLimitScan, Value.pyGetD, hP, hpt, hM, h]
  · intro v hv
    simp [List.filter, hv]

/-- Witness for claim C7: three AWS-managed ARNs plus one account-local
ARN stay at the cap and pass. -/
theorem claim7_witness :
    iamLimitScan (.dict [("Properties", .dict [("ManagedPolicyArns", .list
      [.str "arn:aws:iam::aws:policy/AmazonSSMManagedInstanceCore",
       .str "arn:aws:iam::aws:policy/CloudWatchAgentServerPolicy",
       .str "arn:aws:iam::aws:policy/AmazonEC2ContainerServiceforEC2Role",
       .str "arn:aws:iam::123456789012:policy/TeamPolicy"])])]) = .ok .PASSED :=
  (claim7_managed_policy_cap
    [("Properties", .dict [("ManagedPolicyArns", .list
      [.str "arn:aws:iam::aws:policy/AmazonSSMManagedInstanceCore",
       .str "arn:aws:iam::aws:policy/CloudWatchAgentServerPolicy",
       .str "arn:aws:iam::aws:policy/AmazonEC2ContainerServiceforEC2Role",
       .str "arn:aws:iam::123456789012:policy/TeamPolicy"])])]
    [("ManagedPolicyArns", .list
      [.str "arn:aws:iam::aws:policy/AmazonSSMManagedInstanceCore",
       .str "arn:aws:iam::aws:policy/CloudWatchAgentServerPolicy",
       .str "arn:aws:iam::aws:policy/AmazonEC2ContainerServiceforEC2Role",
       .str "arn:aws:iam::123456789012:policy/TeamPolicy"])]
    [.str "arn:aws:iam::aws:policy/AmazonSSMManagedInstanceCore",
     .str "arn:aws:iam::aws:policy/CloudWatchAgentServerPolicy",
     .str "arn:aws:iam::aws:policy/AmazonEC2ContainerServiceforEC2Role",
     .str "arn:aws:iam::123456789012:policy/TeamPolicy"]
    rfl rfl).1 (by decide)

/-- Claim C8: the volume-encryption predicate passes a volume with
Encrypted true and a non-empty KmsKeyId string, fails Encrypted true with
no key id, fails Encrypted false, and fails when Properties is missing
entirely, while the SSH network-exposure predicate passes the same
missing-properties configuration. -/
theorem claim8_ebs_encryption_defaults :
    (∀ (c p : List (String × Value)) (s : String),
      assocLookup c "Properties" = some (.dict p) →
      assocLookup p "Encrypted" = some (.bool true) →
      assocLookup p "KmsKeyId" = some (.str s) → s ≠ "" →
      ebsCmkScan (.dict c) = .ok .PASSED)
    ∧ (∀ (c p : List (String × Value)),
      assocLookup c "Properties" = some (.dict p) →
      assocLookup p "Encrypted" = some (.bool true) →
      assocLookup p "KmsKeyId" = none →
      ebsCmkScan (.dict c) = .ok .FAILED)
    ∧ (∀ (c p : List (String × Value)),
      assocLookup c "Properties" = some (.dict p) →
      assocLookup p "Encrypted" = some (.bool false) →
      ebsCmkScan (.dict c) = .ok .FAILED)
    ∧ (∀ c : List (String × Value),
      assocLookup c "Properties" = none →
      ebsCmkScan (.dict c) = .ok .FAILED ∧ sgNoSshScan (.dict c) = .ok .PASSED) := by
  refine ⟨?_, ?_, ?_, ?_⟩
  · intro c p s hP hE hK hs
    have hne : p ≠ [] := by
      intro hnil
      rw [hnil] at hE
      simp [assocLookup] at hE
    simp [ebsCmkScan, Value.pyGetD, hP, hE, hK, Value.isTruthy, pyEq, hs, hne]
  · intro c p hP hE hK
    have hpt : (Value.dict p).isTruthy = true := dict_isTruthy_of_lookup p _ _ hE
    simp [ebsCmkScan, Value.pyGetD, hP, hpt, hE, hK, Value.isTruthy]
  · intro c p hP hE
    have hpt : (Value.dict p).isTruthy = true := dict_isTruthy_of_lookup p _ _ hE
    simp [ebsCmkScan, Value.pyGetD, hP, hpt, hE, Value.isTruthy]
  · intro c hP
    constructor
    · simp [ebsCmkScan, Value.pyGetD, hP, Value.isTruthy]
    · simp [sgNoSshScan, Value.pyGetD, hP, Value.isTruthy]

/-- Witness for claim C8: the four concrete configurations of the claim. -/
theorem claim8_witness :
    ebsCmkScan (.dict [("Properties", .dict [("Encrypted", .bool true),
      ("KmsKeyId", .str "arn:aws:kms:eu-west-1:111122223333:key/abc")])]) = .ok .PASSED
    ∧ ebsCmkScan (.dict [("Properties", .dict [("Encrypted", .bool true)])]) = .ok .FAILED
    ∧ ebsCmkScan (.dict [("Properties", .dict [("Encrypted", .bool false)])]) = .ok .FAILED
    ∧ (ebsCmkScan (.dict [("Tags", .list [])]) = .ok .FAILED
       ∧ sgNoSshScan (.dict [("Tags", .list [])]) = .ok .PASSED) :=
  ⟨claim8_ebs_encryption_defaults.1 _ _ _ rfl rfl rfl (by decide),
   claim8_ebs_encryption_defaults.2.1 _ _ rfl rfl rfl,
   claim8_ebs_encryption_defaults.2.2.1 _ _ rfl rfl,
   claim8_ebs_encryption_defaults.2.2.2 _ rfl⟩

/-- Claim C9: the retention predicate passes when RetentionInDays is
absent, fails when it coerces to an integer below 90, passes at or above
90, and returns UNKNOWN without raising when the value is present,
non-null and fails int coercion. -/
theorem claim9_log_retention :
    ∀ (c p : List (String × Value)),
      assocLookup c "Properties" = some (.dict p) →
      ((assocLookup p "RetentionInDays" = none →
          logRetentionScan (.dict c) = .ok .PASSED)
       ∧ (∀ (v : Value) (n : Int),
          assocLookup p "RetentionInDays" = some v → pyInt v = some n →
          ((n < 90 → logRetentionScan (.dict c) = .ok .FAILED)
           ∧ (90 ≤ n → logRetentionScan (.dict c) = .ok .PASSED)))
       ∧ (∀ v : Value,
          assocLookup p "RetentionInDays" = some v → v ≠ .null → pyInt v = none →
          logRetentionScan (.dict c) = .ok .UNKNOWN)) := by
  intro c p hP
  refine ⟨?_, ?_, ?_⟩
  · intro h
    simp [logRetentionScan, Value.pyGetD, hP, h, Value.isNull]
  · intro v n hv hn
    constructor
    · intro hlt
      have : ¬ (90 : Int) ≤ n := by omega
      have hnn : v ≠ .null := by
        intro hveq
        rw [hveq] at hn
        simp [pyInt] at hn
      simp [logRetentionScan, Value.pyGetD, hP, hv, Value.isNull,
        isNull_false_of_ne v hnn, hn, this]
    · intro hge
      have hnn : v ≠ .null := by
        intro hveq
        rw [hveq] at hn
        simp [pyInt] at hn
      simp [logRetentionScan, Value.pyGetD, hP, hv, Value.isNull,
        isNull_false_of_ne v hnn, hn, hge]
  · intro v hv hnn hi
    simp [logRetentionScan, Value.pyGetD, hP, hv, Value.isNull,
      isNull_false_of_ne v hnn, hi]

/-- Witness for claim C9: retention 30 fails, retention 365 passes, a
non-numeric retention yields UNKNOWN, and no retention passes. -/
theorem claim9_witness :
    logRetentionScan (.dict [("Properties", .dict [("RetentionInDays", .num 30)])]) = .ok .FAILED
    ∧ logRetentionScan (.dict [("Properties", .dict [("RetentionInDays", .num 365)])]) = .ok .PASSED
    ∧ logRetentionScan (.dict [("Properties", .dict [("RetentionInDays", .str "soon")])]) = .ok .UNKNOWN
    ∧ logRetentionScan (.dict [("Properties", .dict [("KmsKeyId", .str "k")])]) = .ok .PASSED :=
  ⟨((claim9_log_retention [("Properties", .dict [("RetentionInDays", .num 30)])]
      [("RetentionInDays", .num 30)] rfl).2.1 (.num 30) 30 rfl rfl).1 (by decide),
   ((claim9_log_retention [("Properties", .dict [("RetentionInDays", .num 365)])]
      [("RetentionInDays", .num 365)] rfl).2.1 (.num 365) 365 rfl rfl).2 (by decide),
   (claim9_log_retention [("Properties", .dict [("RetentionInDays", .str "soon")])]
      [("RetentionInDays", .str "soon")] rfl).2.2 (.str "soon") rfl (by simp) rfl,
   (claim9_log_retention [("Properties", .dict [("KmsKeyId", .str "k")])]
      [("KmsKeyId", .str "k")] rfl).1 rfl⟩
